import Mathlib

/-!
Shallow embedding of the client-side reconciliation logic of the todos
application (`src/app/page.tsx`) together with the server-side row semantics
it relies on (`src/sql/create_todos_table.sql`).

Modelling conventions:
* Timestamps (`created_at`, `updated_at`, SQL `timestamptz`) are modelled as
  `Nat`; the store orders them totally, which is all the code uses.
* The remote call outcome of each handler is an explicit `Bool` argument
  (`remoteOk`): `true` is the no-`error` branch, `false` collapses the
  `error` branch and the `catch` branch, both of which only log.
* The realtime payload is the tagged variant over the three event kinds the
  `switch` in `handleRealtimeChange` dispatches on; the `default` branch of
  the `switch` is a no-op and carries no payload, so it needs no constructor.
-/

/-- The `inputValue.trim()` call of `addTodo` (JS `String.prototype.trim`):
strip leading and trailing whitespace.  Stated over the character list so
that it is kernel-executable. -/
def jsTrim (s : String) : String :=
  ⟨((s.data.dropWhile Char.isWhitespace).reverse.dropWhile
      Char.isWhitespace).reverse⟩

/-- A row of the `todos` table, as the client receives it
(`interface Todo` in `src/app/page.tsx`; columns in
`src/sql/create_todos_table.sql`). -/
structure Todo where
  id : String
  user_id : String
  text : String
  completed : Bool
  created_at : Nat
  updated_at : Nat
  deriving DecidableEq

/-- The component state the handlers read and write: the `todos` list and the
`inputValue` buffer (`useState` hooks in `TodoApp`). -/
structure ClientState where
  todos : List Todo
  inputValue : String
  deriving DecidableEq

/-- A change-feed notification: `eventType` with the record the handler reads
(`new` for INSERT/UPDATE, `old` for DELETE). -/
inductive RealtimeEvent where
  | insert (newRecord : Todo)
  | update (newRecord : Todo)
  | delete (oldRecord : Todo)
  deriving DecidableEq

/-- `handleRealtimeChange` from `src/app/page.tsx` (lines 119-142), as a
function on the `todos` list (each branch is a `setTodos` with a pure
updater):
* INSERT prepends `newRecord` (no existing-id check);
* UPDATE maps, replacing every entry whose `id` equals `newRecord.id`;
* DELETE filters out entries whose `id` equals `oldRecord.id`. -/
def handleRealtimeChange (payload : RealtimeEvent) (currentTodos : List Todo) :
    List Todo :=
  match payload with
  | .insert newRecord => newRecord :: currentTodos
  | .update newRecord =>
      currentTodos.map fun todo => if todo.id == newRecord.id then newRecord else todo
  | .delete oldRecord =>
      currentTodos.filter fun todo => todo.id != oldRecord.id

/-- The row the insert call of `addTodo` sends to the store. -/
structure InsertRequest where
  user_id : String
  text : String
  completed : Bool
  deriving DecidableEq

/-- `addTodo` from `src/app/page.tsx` (lines 149-171).  Returns the state
after the handler ran and the insert request it issued (if any):
* `!inputValue.trim() || !user` → early return, no request;
* insert error / exception (`remoteOk = false`) → state unchanged;
* success → the input buffer is cleared; `todos` is never touched (the
  comment in the source defers the list update to the realtime
  subscription). -/
def addTodo (user : Option String) (remoteOk : Bool) (s : ClientState) :
    ClientState × Option InsertRequest :=
  if (jsTrim s.inputValue).isEmpty then (s, none)
  else
    match user with
    | none => (s, none)
    | some uid =>
        let req : InsertRequest :=
          { user_id := uid, text := jsTrim s.inputValue, completed := false }
        if remoteOk then ({ s with inputValue := "" }, some req)
        else (s, some req)

/-- The update call `toggleTodo` sends to the store: the new `completed`
value, filtered by `id` and `user_id`. -/
structure UpdateRequest where
  id : String
  user_id : String
  completed : Bool
  deriving DecidableEq

/-- The request side of `toggleTodo` from `src/app/page.tsx` (lines 174-192):
no user or no local entry with this `id` → no request; otherwise the request
carries the negation of the `completed` field of the local entry. -/
def toggleTodoRequest (user : Option String) (id : String) (todos : List Todo) :
    Option UpdateRequest :=
  match user with
  | none => none
  | some uid =>
      match todos.find? fun t => t.id == id with
      | none => none
      | some todo => some { id := id, user_id := uid, completed := !todo.completed }

/-- The state side of `toggleTodo`: no branch of the source function calls
`setTodos` or `setInputValue` (success defers to the realtime subscription,
error and exception only log), so the state is returned unchanged on every
path. -/
def toggleTodo (user : Option String) (id : String) (remoteOk : Bool)
    (s : ClientState) : ClientState :=
  match user with
  | none => s
  | some _ =>
      match s.todos.find? fun t => t.id == id with
      | none => s
      | some _ => if remoteOk then s else s

/-- The delete call `deleteTodo` sends to the store, filtered by `id` and
`user_id`. -/
structure DeleteRequest where
  id : String
  user_id : String
  deriving DecidableEq

/-- The request side of `deleteTodo` from `src/app/page.tsx` (lines 195-210):
issued whenever a user is present. -/
def deleteTodoRequest (user : Option String) (id : String) :
    Option DeleteRequest :=
  match user with
  | none => none
  | some uid => some { id := id, user_id := uid }

/-- The state side of `deleteTodo`: as with `toggleTodo`, no branch of the
source function mutates `todos` or `inputValue` (success defers to the
realtime subscription, error and exception only log). -/
def deleteTodo (user : Option String) (id : String) (remoteOk : Bool)
    (s : ClientState) : ClientState :=
  match user with
  | none => s
  | some _ => if remoteOk then s else s

/-- The row the store creates for an insert request
(`src/sql/create_todos_table.sql`): `id` is generated, `created_at` and
`updated_at` default to the commit time. -/
def serverInsert (req : InsertRequest) (newId : String) (now : Nat) : Todo :=
  { id := newId, user_id := req.user_id, text := req.text,
    completed := req.completed, created_at := now, updated_at := now }

/-- The row the store produces when an update request hits row `row`: the
`completed` column is set and the `update_updated_at_column` trigger
refreshes `updated_at`. -/
def serverUpdate (row : Todo) (completed : Bool) (now : Nat) : Todo :=
  { row with completed := completed, updated_at := now }

/-- The list order the initial fetch establishes and the invariants speak
about: `created_at` descending, as requested by the order clause of
`fetchTodos`. -/
def sortedByCreatedAtDesc (l : List Todo) : Prop :=
  List.Pairwise (fun a b => b.created_at ≤ a.created_at) l

instance (l : List Todo) : Decidable (sortedByCreatedAtDesc l) :=
  inferInstanceAs
    (Decidable (List.Pairwise (fun a b : Todo => b.created_at ≤ a.created_at) l))

/-- The `items` effect of a sequence of completed add round-trips: the INSERT
echo of each add is applied by `handleRealtimeChange` in arrival order
(`addTodo` itself never touches `todos`). -/
def applyAdds (l : List Todo) (adds : List Todo) : List Todo :=
  adds.foldl (fun acc r => handleRealtimeChange (.insert r) acc) l

/-- Concrete rows for witnesses and counterexamples. -/
def demoTodo1 : Todo :=
  { id := "1", user_id := "u", text := "a", completed := false,
    created_at := 2, updated_at := 2 }

def demoTodo2 : Todo :=
  { id := "2", user_id := "u", text := "b", completed := true,
    created_at := 1, updated_at := 1 }

def demoTodo3 : Todo :=
  { id := "3", user_id := "u", text := "c", completed := false,
    created_at := 3, updated_at := 3 }

def demoTodo4 : Todo :=
  { id := "4", user_id := "u", text := "d", completed := false,
    created_at := 4, updated_at := 4 }

/-- A concrete two-row state, newest first. -/
def demoState : ClientState :=
  { todos := [demoTodo1, demoTodo2], inputValue := "" }

/-- A concrete state about to submit an add. -/
def demoAddState : ClientState :=
  { todos := [demoTodo1], inputValue := " buy milk " }

/-- A concrete state whose input is whitespace-only. -/
def demoBlankState : ClientState :=
  { todos := [demoTodo1], inputValue := "   " }

/-! ### Helper lemmas -/

theorem handleRealtimeChange_insert (r : Todo) (l : List Todo) :
    handleRealtimeChange (.insert r) l = r :: l := rfl

theorem handleRealtimeChange_update (r : Todo) (l : List Todo) :
    handleRealtimeChange (.update r) l
      = l.map fun todo => if todo.id == r.id then r else todo := rfl

theorem handleRealtimeChange_delete (r : Todo) (l : List Todo) :
    handleRealtimeChange (.delete r) l
      = l.filter fun todo => todo.id != r.id := rfl

theorem map_replace_idem (r : Todo) (l : List Todo) :
    ((l.map fun todo => if todo.id == r.id then r else todo).map
        fun todo => if todo.id == r.id then r else todo)
      = l.map fun todo => if todo.id == r.id then r else todo := by
  induction l with
  | nil => rfl
  | cons a t ih =>
      simp only [List.map_cons, List.cons.injEq]
      refine ⟨?_, ih⟩
      by_cases h : (a.id == r.id) = true
      · simp [h]
      · simp [h]

theorem filter_ne_idem (r : Todo) (l : List Todo) :
    ((l.filter fun todo => todo.id != r.id).filter
        fun todo => todo.id != r.id)
      = l.filter fun todo => todo.id != r.id := by
  induction l with
  | nil => rfl
  | cons a t ih =>
      by_cases h : (a.id != r.id) = true
      · simp [List.filter_cons, h, ih]
      · simp [List.filter_cons, h, ih]

theorem map_replace_of_ne (r : Todo) : ∀ l : List Todo,
    (∀ t ∈ l, t.id ≠ r.id) →
    (l.map fun todo => if todo.id == r.id then r else todo) = l := by
  intro l
  induction l with
  | nil => intro _; rfl
  | cons a t ih =>
      intro hall
      have ha : (a.id == r.id) = false := by
        simpa using hall a (List.mem_cons_self a t)
      have ht := ih fun x hx => hall x (List.mem_cons_of_mem a hx)
      simp only [List.map_cons, ht, List.cons.injEq, and_true]
      simp [ha]

theorem applyAdds_sorted_of (adds : List Todo) : ∀ l : List Todo,
    sortedByCreatedAtDesc l →
    (∀ x ∈ l, ∀ r ∈ adds, x.created_at ≤ r.created_at) →
    List.Pairwise (fun a b => a.created_at < b.created_at) adds →
    sortedByCreatedAtDesc (applyAdds l adds) := by
  induction adds with
  | nil => intro l hl _ _; exact hl
  | cons r rs ih =>
      intro l hl hbase hinc
      have hhead := (List.pairwise_cons.mp hinc).1
      have htail := (List.pairwise_cons.mp hinc).2
      have hl' : sortedByCreatedAtDesc (r :: l) :=
        List.Pairwise.cons (fun b hb => hbase b hb r (List.mem_cons_self r rs)) hl
      have hbase' : ∀ x ∈ r :: l, ∀ q ∈ rs, x.created_at ≤ q.created_at := by
        intro x hx q hq
        rcases List.mem_cons.mp hx with h | h
        · subst h
          exact Nat.le_of_lt (hhead q hq)
        · exact hbase x h q (List.mem_cons_of_mem r hq)
      exact ih (r :: l) hl' hbase' htail

/-! ### Claim theorems -/

/-- Claim C1: after a successful add whose server-confirmed record has id
`newId`, delivering the feed INSERT event for that record leaves `items` with
exactly one entry whose id is `newId`.  In this code the add itself never
inserts locally (no optimistic placeholder), so the echo is applied as the
sole entry and no duplicate can arise; the server-assigned id is fresh, which
the `hfresh` hypothesis records. -/
theorem add_insert_echo_exactly_one (s : ClientState) (uid newId : String)
    (now : Nat)
    (hne : (jsTrim s.inputValue).isEmpty = false)
    (hfresh : ∀ t ∈ s.todos, t.id ≠ newId) :
    (handleRealtimeChange
        (.insert (serverInsert
          { user_id := uid, text := jsTrim s.inputValue, completed := false }
          newId now))
        (addTodo (some uid) true s).1.todos).countP
      (fun t => t.id == newId) = 1 := by
  have h1 : (addTodo (some uid) true s).1.todos = s.todos := by
    simp [addTodo, hne]
  rw [h1, handleRealtimeChange_insert, List.countP_cons]
  have h0 : s.todos.countP (fun t => t.id == newId) = 0 := by
    rw [List.countP_eq_zero]
    intro t ht
    simpa using hfresh t ht
  simp [h0, serverInsert]

/-- Claim C1 witness: a concrete successful add of text buy milk followed by
the INSERT echo with fresh id. -/
theorem add_insert_echo_exactly_one_witness :
    (jsTrim demoAddState.inputValue).isEmpty = false ∧
      (∀ t ∈ demoAddState.todos, t.id ≠ "9") ∧
      (handleRealtimeChange
          (.insert (serverInsert
            { user_id := "u", text := jsTrim demoAddState.inputValue,
              completed := false } "9" 9))
          (addTodo (some "u") true demoAddState).1.todos).countP
        (fun t => t.id == "9") = 1 :=
  ⟨by decide, by decide,
    add_insert_echo_exactly_one demoAddState "u" "9" 9 (by decide) (by decide)⟩

/-- Claim C2: if the remote create call of an add fails, both `items` and the
input buffer are exactly what they were before the operation (the code never
inserted an optimistic placeholder and clears the buffer only on success, so
the submitted text is still in the buffer). -/
theorem add_remote_failure_rollback (s : ClientState) (uid : String)
    (hne : (jsTrim s.inputValue).isEmpty = false) :
    (addTodo (some uid) false s).1.todos = s.todos ∧
      (addTodo (some uid) false s).1.inputValue = s.inputValue := by
  simp [addTodo, hne]

/-- Claim C2 witness: a concrete failing add leaves the concrete state
untouched. -/
theorem add_remote_failure_rollback_witness :
    (jsTrim demoAddState.inputValue).isEmpty = false ∧
      (addTodo (some "u") false demoAddState).1.todos = demoAddState.todos ∧
      (addTodo (some "u") false demoAddState).1.inputValue
        = demoAddState.inputValue :=
  ⟨by decide,
    (add_remote_failure_rollback demoAddState "u" (by decide)).1,
    (add_remote_failure_rollback demoAddState "u" (by decide)).2⟩

/-- Claim C4: applying the same UPDATE or DELETE feed event twice yields the
same `items` state as applying it once (replacement by id and filtering by id
are idempotent; no event is ever suppressed in this code, so this covers
every delivered event). -/
theorem feed_update_delete_idempotent (l : List Todo) (r : Todo) :
    handleRealtimeChange (.update r) (handleRealtimeChange (.update r) l)
        = handleRealtimeChange (.update r) l ∧
      handleRealtimeChange (.delete r) (handleRealtimeChange (.delete r) l)
        = handleRealtimeChange (.delete r) l :=
  ⟨map_replace_idem r l, filter_ne_idem r l⟩

/-- Claim C7: an input whose trimmed form is empty is rejected silently: the
state is unchanged and no insert request is issued. -/
theorem add_empty_input_rejected (user : Option String) (ok : Bool)
    (s : ClientState) (h : (jsTrim s.inputValue).isEmpty = true) :
    addTodo user ok s = (s, none) := by
  simp [addTodo, h]

/-- Claim C7 witness: a whitespace-only buffer is rejected with no request. -/
theorem add_empty_input_rejected_witness :
    (jsTrim demoBlankState.inputValue).isEmpty = true ∧
      addTodo (some "u") true demoBlankState = (demoBlankState, none) :=
  ⟨by decide, add_empty_input_rejected (some "u") true demoBlankState (by decide)⟩

/-- Claim C3: for an id present in `items`, the toggle issues an update
request carrying the negated `completed` flag; after the successful round
trip — the committed update echoed back by the feed as an UPDATE event whose
record carries the negated flag — every entry with that id has `completed`
flipped exactly once relative to its pre-toggle value (and such an entry
exists); after a remote failure, the local state is exactly what it was, so
`completed` equals its pre-toggle value.  In this code the flip is applied
only by the feed echo: `toggleTodo` itself never mutates the list. -/
theorem toggle_roundtrip (uid tid : String) (s : ClientState) (e row : Todo)
    (now : Nat)
    (hfind : s.todos.find? (fun t => t.id == tid) = some e)
    (hrow : row.id = tid) :
    toggleTodoRequest (some uid) tid s.todos
        = some { id := tid, user_id := uid, completed := !e.completed } ∧
      (∀ t ∈ handleRealtimeChange
          (.update (serverUpdate row (!e.completed) now)) s.todos,
        t.id = tid → t.completed = !e.completed) ∧
      (∃ t ∈ handleRealtimeChange
          (.update (serverUpdate row (!e.completed) now)) s.todos,
        t.id = tid) ∧
      toggleTodo (some uid) tid false s = s := by
  have hid : (serverUpdate row (!e.completed) now).id = tid := hrow
  have hcomp : (serverUpdate row (!e.completed) now).completed
      = !e.completed := rfl
  refine ⟨?_, ?_, ?_, ?_⟩
  · simp [toggleTodoRequest, hfind]
  · intro t ht htid
    rw [handleRealtimeChange_update] at ht
    rcases List.mem_map.mp ht with ⟨x, hx, rfl⟩
    by_cases h : x.id = tid
    · have hb : (x.id == (serverUpdate row (!e.completed) now).id) = true := by
        simp [hid, h]
      simp [hb, hcomp]
    · have hb : (x.id == (serverUpdate row (!e.completed) now).id) = false := by
        simp [hid, h]
      simp [hb] at htid
      exact absurd htid h
  · have he : e ∈ s.todos := List.mem_of_find?_eq_some hfind
    have heid := List.find?_some hfind
    refine ⟨serverUpdate row (!e.completed) now, ?_, hid⟩
    rw [handleRealtimeChange_update]
    refine List.mem_map.mpr ⟨e, he, ?_⟩
    have hb : (e.id == (serverUpdate row (!e.completed) now).id) = true := by
      simpa [hid] using heid
    rw [if_pos hb]
  · simp [toggleTodo, hfind]

/-- Claim C3 witness: toggling the concrete entry with id 2. -/
theorem toggle_roundtrip_witness :
    demoState.todos.find? (fun t => t.id == "2") = some demoTodo2 ∧
      demoTodo2.id = "2" ∧
      toggleTodoRequest (some "u") "2" demoState.todos
        = some { id := "2", user_id := "u", completed := !demoTodo2.completed } :=
  ⟨by decide, by decide,
    (toggle_roundtrip "u" "2" demoState demoTodo2 demoTodo2 5
      (by decide) (by decide)).1⟩

/-- Claim C5: starting from a list sorted by `created_at` descending, a
sequence of add round-trips with increasing timestamps keeps `items` sorted
by `created_at` descending at every observation point (every prefix of the
sequence), and each add places its new task first (the INSERT echo
prepends). -/
theorem add_sequence_sorted (l adds : List Todo) (n : Nat)
    (hl : sortedByCreatedAtDesc l)
    (hbase : ∀ x ∈ l, ∀ r ∈ adds, x.created_at ≤ r.created_at)
    (hinc : List.Pairwise (fun a b => a.created_at < b.created_at) adds) :
    sortedByCreatedAtDesc (applyAdds l (adds.take n)) ∧
      ∀ (acc : List Todo) (r : Todo),
        handleRealtimeChange (.insert r) acc = r :: acc := by
  refine ⟨?_, fun acc r => rfl⟩
  refine applyAdds_sorted_of (adds.take n) l hl ?_ ?_
  · intro x hx r hr
    exact hbase x hx r (List.take_subset n adds hr)
  · exact List.Pairwise.sublist (List.take_sublist n adds) hinc

/-- Claim C5 witness: two adds with timestamps 3 and 4 on a concrete sorted
two-row list. -/
theorem add_sequence_sorted_witness :
    sortedByCreatedAtDesc [demoTodo1, demoTodo2] ∧
      (∀ x ∈ [demoTodo1, demoTodo2], ∀ r ∈ [demoTodo3, demoTodo4],
        x.created_at ≤ r.created_at) ∧
      List.Pairwise (fun a b => a.created_at < b.created_at)
        [demoTodo3, demoTodo4] ∧
      sortedByCreatedAtDesc
        (applyAdds [demoTodo1, demoTodo2] ([demoTodo3, demoTodo4].take 2)) :=
  ⟨by decide, by decide, by decide,
    (add_sequence_sorted [demoTodo1, demoTodo2] [demoTodo3, demoTodo4] 2
      (by decide) (by decide) (by decide)).1⟩

/-- Claim C6 counterexample: `deleteTodo` does not remove the entry from
`items` immediately — on the concrete two-row state the entry with id 2 is
still present right after the call — and after a failed remote delete the
list is not the retained copy re-inserted at the head, it is simply the
unchanged original list. -/
theorem remove_not_optimistic_counterexample :
    (deleteTodo (some "u") "2" true demoState).todos = [demoTodo1, demoTodo2] ∧
      demoTodo2 ∈ (deleteTodo (some "u") "2" true demoState).todos ∧
      demoTodo2.id = "2" ∧
      (deleteTodo (some "u") "2" false demoState).todos
        ≠ [demoTodo2, demoTodo1] := by
  decide

/-- Claim C6 (amended): `deleteTodo` leaves the client state unchanged on
every path (so after a failed remote delete the entry is retained at its
original position, not re-inserted at the head); the entry disappears only
when the DELETE feed event arrives, which removes every entry with that id
and preserves the order of the rest. -/
theorem remove_no_local_change (uid tid : String) (ok : Bool) (s : ClientState)
    (r : Todo) :
    deleteTodo (some uid) tid ok s = s ∧
      (∀ t ∈ handleRealtimeChange (.delete r) s.todos, t.id ≠ r.id) ∧
      (handleRealtimeChange (.delete r) s.todos).Sublist s.todos := by
  refine ⟨?_, ?_, ?_⟩
  · cases ok <;> rfl
  · intro t ht
    rw [handleRealtimeChange_delete] at ht
    simpa using List.of_mem_filter ht
  · rw [handleRealtimeChange_delete]
    exact List.filter_sublist s.todos

/-- Claim C6 (amended) witness: on the concrete state the surviving entry of
a DELETE event has a different id from the deleted one. -/
theorem remove_no_local_change_witness :
    demoTodo1.id ≠ demoTodo2.id :=
  (remove_no_local_change "u" "2" true demoState demoTodo2).2.1 demoTodo1
    (by decide)

/-- Claim C8: an UPDATE feed event rewrites `items` pointwise — the entry at
each position is replaced by the incoming record exactly when its id matches,
so a matching entry is replaced in place and every other entry (and the
length) is unchanged; if no entry has the incoming id, `items` is unchanged.
No event is ever suppressed in this code, so this covers every delivered
UPDATE. -/
theorem feed_update_replaces_in_place (l : List Todo) (r : Todo) :
    (∀ n : Nat, (handleRealtimeChange (.update r) l)[n]?
        = (l[n]?).map fun todo => if todo.id == r.id then r else todo) ∧
      ((∀ t ∈ l, t.id ≠ r.id) → handleRealtimeChange (.update r) l = l) := by
  constructor
  · intro n
    rw [handleRealtimeChange_update]
    exact List.getElem?_map ..
  · intro hall
    rw [handleRealtimeChange_update]
    exact map_replace_of_ne r l hall

/-- Claim C8 witness: an UPDATE whose id matches nothing leaves the concrete
list unchanged. -/
theorem feed_update_replaces_in_place_witness :
    (∀ t ∈ [demoTodo1], t.id ≠ demoTodo2.id) ∧
      handleRealtimeChange (.update demoTodo2) [demoTodo1] = [demoTodo1] :=
  ⟨by decide,
    (feed_update_replaces_in_place [demoTodo1] demoTodo2).2 (by decide)⟩
